import Mathlib

/-
Verification of the document-analysis pipeline and storage layer of the
devvit-ocrdocs repository against its natural-language specification.

The TypeScript sources are embedded shallowly:
  * strings are modelled as Lean `String` values and all string operations
    (substring containment, prefix tests, lower-casing, truncation) are
    written over the underlying character lists, matching the JavaScript
    operations on sequences of UTF-16 units at the character level;
  * the external Gemini call, the JSON parser of the platform and the md5
    digest are oracles/parameters: each attempt of the external call is an
    input describing how the platform resolved it, JSON.parse is abstracted
    by its observable outcome (failure, or an object with optional string
    fields), and the digest is an arbitrary function parameter;
  * Redis state is explicit: the rate-limit counter and the analysis cache
    are fields of a state record threaded through the endpoint functions;
  * side effects that the claims talk about (incrementing the counter,
    invoking the AI call, writing the cache, calling a storage adapter)
    are recorded in an event trace returned by each endpoint function.
-/

set_option linter.unusedVariables false

namespace OcrDocs

/-- Embedding of the JavaScript method String.includes: substring containment. -/
def strContains (s pat : String) : Bool := decide (pat.data <:+: s.data)

/-- Embedding of the JavaScript method String.startsWith. -/
def strStartsWith (s pat : String) : Bool := pat.data.isPrefixOf s.data

/-- Embedding of the JavaScript method String.endsWith. -/
def strEndsWith (s pat : String) : Bool := pat.data.isSuffixOf s.data

/-- Embedding of the JavaScript method String.toLowerCase (ASCII range). -/
def strToLower (s : String) : String := String.mk (s.data.map Char.toLower)

/-- Embedding of the JavaScript call text.substring(0, n): the first n characters. -/
def strTake (s : String) (n : Nat) : String := String.mk (s.data.take n)

/-- Analysis result: the object with description and summary returned by the
analysis functions in src/server/ai/gemini.ts. -/
structure AnalysisResult where
  description : String
  summary : String
deriving DecidableEq

deriving instance DecidableEq for Except

/-- Characters matched by the character class of the sanitizeText regex in
gemini.ts: ranges x00-x08, x0B-x0C, x0E-x1F and the single character x7F. -/
def isStrippedControl (c : Char) : Bool :=
  decide (c.toNat ≤ 0x08) || decide (0x0B ≤ c.toNat ∧ c.toNat ≤ 0x0C) ||
  decide (0x0E ≤ c.toNat ∧ c.toNat ≤ 0x1F) || decide (c.toNat = 0x7F)

/-- sanitizeText from gemini.ts: delete every character matched by the regex
class, keeping all other characters in order. -/
def sanitizeText (text : String) : String :=
  String.mk (text.data.filter (fun c => !isStrippedControl c))

/-- Observable outcome of running JSON.parse on the (fence-stripped) model
output text: either parsing failed, or it produced an object whose
description and summary fields are the given optional strings (an absent
field is none). JSON.parse is platform library code and is abstracted by
this view; the code-fence stripping in parseGeminiResponse only rewrites the
text handed to JSON.parse and is absorbed into it. -/
inductive RawResponse where
  | malformed : RawResponse
  | json : Option String → Option String → RawResponse
deriving DecidableEq

/-- Error message thrown by parseGeminiResponse on any failure; the inner
missing-fields error is caught by its own catch block and rethrown with this
message. -/
def invalidResponseMsg : String := "Invalid response format from Gemini API"

/-- parseGeminiResponse from gemini.ts: fail if either required field is
absent or empty (the JavaScript falsy test), otherwise truncate description
to 100 characters and summary to 500 characters with substring and then
apply sanitizeText to each. -/
def parseGeminiResponse (r : RawResponse) : Except String AnalysisResult :=
  match r with
  | RawResponse.malformed => Except.error invalidResponseMsg
  | RawResponse.json d? s? =>
    match d?, s? with
    | some d, some s =>
      if d = "" || s = "" then Except.error invalidResponseMsg
      else Except.ok { description := sanitizeText (strTake d 100),
                       summary := sanitizeText (strTake s 500) }
    | _, _ => Except.error invalidResponseMsg

/-- Patterns of retryable errors in isRetryableError from gemini.ts. -/
def retryablePatterns : List String :=
  ["timeout", "network", "econnreset", "econnrefused", "etimedout",
   "socket hang up", "503", "429", "temporarily unavailable"]

/-- isRetryableError from gemini.ts: the lowercased error message contains
one of the retryable patterns. -/
def isRetryableError (msg : String) : Bool :=
  retryablePatterns.any (fun p => strContains (strToLower msg) p)

/-- File kind produced by detectFileType in gemini.ts. -/
inductive FileKind where
  | image : FileKind
  | pdf : FileKind
deriving DecidableEq

/-- createFallbackResponse from gemini.ts: deterministic degraded result
built from the file name and the file kind; the error message argument is
only logged and does not influence the returned value. -/
def createFallbackResponse (fileName : String) (fileType : FileKind)
    (errorMessage : String) : AnalysisResult :=
  { description := (if fileType = FileKind.pdf then "PDF" else "Image") ++ " - " ++ fileName,
    summary := "Auto-analysis unavailable. Please add details manually." }

/-- Outcome of one attempt of the external call, as seen by the catch block
of analyzeImage/analyzePDF: either the API replied with text whose parse
view is the given RawResponse, or something threw with the given message
(covering the missing-API-key error of getModel, the 5-second timeout
rejection with message API timeout, and transport errors). -/
inductive CallOutcome where
  | reply : RawResponse → CallOutcome
  | fail : String → CallOutcome
deriving DecidableEq

/-- Result of running one of the analysis functions: the returned value, a
provenance flag telling whether it came from createFallbackResponse, the
number of external-call attempts made, and the backoff delays (in
milliseconds) slept between attempts, in order. -/
structure AiRun where
  result : AnalysisResult
  isFallback : Bool
  calls : Nat
  delays : List Nat
deriving DecidableEq

/-- Maximum number of retries in analyzeImage and analyzePDF (gemini.ts). -/
def MAX_RETRIES : Nat := 2

/-- Outcome of one attempt including response parsing: a successful reply
still fails with invalidResponseMsg when parseGeminiResponse throws, since
that throw is caught by the same catch block. -/
def attemptOutcome (c : CallOutcome) : Except String AnalysisResult :=
  match c with
  | CallOutcome.reply r => parseGeminiResponse r
  | CallOutcome.fail msg => Except.error msg

/-- Shared retry loop of analyzeImage and analyzePDF from gemini.ts (the two
functions differ only in prompt, mime handling and the file kind passed to
createFallbackResponse; the retry, backoff and fallback structure is
identical and embedded once, parameterized by the kind). The oracle o gives
the outcome of attempt number retryCount; on a retryable error with
retryCount below MAX_RETRIES the code sleeps 2 ^ retryCount * 1000
milliseconds and recurses with retryCount + 1, otherwise it returns
createFallbackResponse. The recursion is made structural on a fuel argument
kept equal to MAX_RETRIES - retryCount by every caller: fuel 0 is reached
only with retryCount at least MAX_RETRIES, where the retry condition of the
source is false and any failed attempt returns the fallback, which is what
the fuel-0 branch does directly. -/
def analyzeWithKindFuel (o : Nat → CallOutcome) (fileName : String)
    (kind : FileKind) : Nat → Nat → AiRun
  | 0, retryCount =>
    match attemptOutcome (o retryCount) with
    | Except.ok res => { result := res, isFallback := false, calls := 1, delays := [] }
    | Except.error msg =>
      { result := createFallbackResponse fileName kind msg,
        isFallback := true, calls := 1, delays := [] }
  | fuel + 1, retryCount =>
    match attemptOutcome (o retryCount) with
    | Except.ok res => { result := res, isFallback := false, calls := 1, delays := [] }
    | Except.error msg =>
      if isRetryableError msg = true ∧ retryCount < MAX_RETRIES then
        let rest := analyzeWithKindFuel o fileName kind fuel (retryCount + 1)
        { result := rest.result, isFallback := rest.isFallback,
          calls := rest.calls + 1, delays := (2 ^ retryCount * 1000) :: rest.delays }
      else
        { result := createFallbackResponse fileName kind msg,
          isFallback := true, calls := 1, delays := [] }

/-- Retry loop entered at attempt retryCount with the matching fuel. -/
def analyzeWithKindAux (o : Nat → CallOutcome) (fileName : String)
    (kind : FileKind) (retryCount : Nat) : AiRun :=
  analyzeWithKindFuel o fileName kind (MAX_RETRIES - retryCount) retryCount

/-- analyzeImage from gemini.ts, started at retryCount 0. -/
def analyzeImage (o : Nat → CallOutcome) (fileName : String) : AiRun :=
  analyzeWithKindAux o fileName FileKind.image 0

/-- analyzePDF from gemini.ts, started at retryCount 0. -/
def analyzePDF (o : Nat → CallOutcome) (fileName : String) : AiRun :=
  analyzeWithKindAux o fileName FileKind.pdf 0

/-- detectFileType from gemini.ts. The source guards the two data-URI tests
with one enclosing startsWith data: test and falls through to the extension
tests when neither matches; the flattening below is equivalent because each
inner pattern extends the string data: itself. -/
def detectFileType (fileData fileType : String) : FileKind :=
  let normalizedType := strToLower fileType
  if strContains normalizedType "pdf" || strContains normalizedType "application/pdf" then
    FileKind.pdf
  else if strContains normalizedType "image" || strContains normalizedType "jpeg" ||
      strContains normalizedType "jpg" || strContains normalizedType "png" ||
      strContains normalizedType "gif" || strContains normalizedType "webp" then
    FileKind.image
  else if strStartsWith fileData "data:application/pdf" then
    FileKind.pdf
  else if strStartsWith fileData "data:image/" then
    FileKind.image
  else if strEndsWith normalizedType ".pdf" then
    FileKind.pdf
  else if strEndsWith normalizedType ".jpg" || strEndsWith normalizedType ".jpeg" ||
      strEndsWith normalizedType ".png" || strEndsWith normalizedType ".gif" ||
      strEndsWith normalizedType ".webp" then
    FileKind.image
  else
    FileKind.image

/-- analyzeDocument from gemini.ts: route on the detected kind. The branches
of the source that throw (the unsupported-type branch) are unreachable since
detectFileType is total over image and pdf, and the outer catch block only
rebuilds the fallback from the detected kind, which the inner functions
already return; the embedding therefore routes directly. -/
def analyzeDocument (o : Nat → CallOutcome) (fileData fileType fileName : String) : AiRun :=
  match detectFileType fileData fileType with
  | FileKind.pdf => analyzePDF o fileName
  | FileKind.image => analyzeImage o fileName

/-- Fallback-marker test used by the analyze endpoint in src/server/index.ts
to decide whether to skip the cache write: the summary contains one of the
two fragments of the fallback summary text. -/
def hasFallbackMarker (s : String) : Bool :=
  strContains s "Auto-analysis unavailable" || strContains s "Please add details manually"

/-- Embedding of the JavaScript expression
fileData.includes(comma) ? fileData.split(comma)[1] : fileData
used by both the analyze and the document-add endpoints: the segment between
the first and second comma when a comma is present, the whole string
otherwise. -/
def base64Of (fileData : String) : String :=
  if strContains fileData "," then String.mk ((fileData.data.splitOn ',').getD 1 [])
  else fileData

/-- Cache key built by the analyze endpoint: the fingerprint function fp
abstracts the md5 hex digest of the decoded bytes (platform library code);
it is applied to the base64 payload that determines those bytes. -/
def cacheKeyOf (fp : String → String) (fileData : String) : String :=
  "analysis:" ++ fp (base64Of fileData)

/-- Redis state visible to the analyze endpoint: the stored value of the
rate-limit counter key for the requesting user and the current UTC day
(none when the key is absent), and the analysis cache as an association
list from cache key to stored result (a set overwrites by consing). -/
structure AnalyzeState where
  rateStored : Option Nat
  cache : List (String × AnalysisResult)
deriving DecidableEq

/-- Side effects of the analyze endpoint recorded in order: incrementing the
rate-limit counter, invoking the external analysis, writing the cache. -/
inductive AEvent where
  | rateIncr : AEvent
  | aiCall : AEvent
  | cacheWrite : AEvent
deriving DecidableEq

/-- Responses of the analyze endpoint, by status: 400 with a message, 401,
429, or 200 with the analysis payload. -/
inductive AResponse where
  | badRequest : String → AResponse
  | authRequired : AResponse
  | rateLimited : AResponse
  | ok : AnalysisResult → AResponse
deriving DecidableEq

/-- Daily rate limit of the analyze endpoint (src/server/index.ts). -/
def RATE_LIMIT : Nat := 100

/-- The analyze endpoint (router.post api/analyze in src/server/index.ts).
Inputs: the call-outcome oracle o for the external analysis, the abstract
fingerprint fp, whether a postId is in context, the current username (empty
string when authentication yields none), the request fields, and the Redis
state. The counter value is the parse of the stored string, 0 when absent;
the endpoint rejects with 429 when it is at or above RATE_LIMIT and
otherwise increments it before everything else; field validation, the cache
lookup, the external call on a miss, and the marker-guarded cache write
follow the source order. -/
def analyzeEndpoint (o : Nat → CallOutcome) (fp : String → String)
    (hasPost : Bool) (user : String) (fileData fileType fileName : String)
    (st : AnalyzeState) : AResponse × AnalyzeState × List AEvent :=
  if !hasPost then (AResponse.badRequest "postId is required", st, [])
  else if user = "" then (AResponse.authRequired, st, [])
  else
    let count := st.rateStored.getD 0
    if RATE_LIMIT ≤ count then (AResponse.rateLimited, st, [])
    else
      let st1 : AnalyzeState := { st with rateStored := some (count + 1) }
      if fileData = "" then
        (AResponse.badRequest "fileData is required", st1, [AEvent.rateIncr])
      else if fileType = "" then
        (AResponse.badRequest "fileType is required", st1, [AEvent.rateIncr])
      else if fileName = "" then
        (AResponse.badRequest "fileName is required", st1, [AEvent.rateIncr])
      else if base64Of fileData = "" then
        (AResponse.badRequest "Invalid file data format", st1, [AEvent.rateIncr])
      else
        let key := cacheKeyOf fp fileData
        match List.lookup key st1.cache with
        | some cached => (AResponse.ok cached, st1, [AEvent.rateIncr])
        | none =>
          let run := analyzeDocument o fileData fileType fileName
          if hasFallbackMarker run.result.summary then
            (AResponse.ok run.result, st1, [AEvent.rateIncr, AEvent.aiCall])
          else
            (AResponse.ok run.result,
             { st1 with cache := (key, run.result) :: st1.cache },
             [AEvent.rateIncr, AEvent.aiCall, AEvent.cacheWrite])

/-- Storage provider tag of a stored document (shared Document type). -/
inductive StorageProvider where
  | redis : StorageProvider
  | s3 : StorageProvider
  | postgresql : StorageProvider
deriving DecidableEq

/-- Document metadata record stored in the Redis list for a post, with the
fields constructed by the document-add endpoint; storageKey is optional and
absent for Redis-stored documents. -/
structure Document where
  id : String
  fileName : String
  fileType : String
  fileSize : Nat
  imageData : String
  description : String
  notes : String
  timestamp : Nat
  storageProvider : StorageProvider
  storageKey : Option String
deriving DecidableEq

/-- Side effects of the document-add endpoint: the Redis metadata write and
(never emitted by the source) a storage-adapter upload. -/
inductive DocEvent where
  | redisWrite : DocEvent
  | adapterUpload : DocEvent
deriving DecidableEq

/-- Responses of the document-add endpoint. sizeError is the 400 response
whose message reports that the file size exceeds the 500KB limit. -/
inductive AddResponse where
  | badRequest : String → AddResponse
  | sizeError : AddResponse
  | ok : Document → AddResponse
deriving DecidableEq

/-- Maximum upload size in bytes (src/server/index.ts, 500 * 1024). -/
def MAX_FILE_SIZE : Nat := 500 * 1024

/-- The document-add endpoint (router.post api/documents/add in
src/server/index.ts). decodedLen abstracts the byte length of the
base64-decoded buffer (platform library code); stored is the current value
of the docs list key for the post (none when absent); now and suffix feed
the generated document id and timestamp. The source stores every accepted
document inline in Redis with provider redis and never consults the storage
factory; the list update prepends the new document and drops the last entry
when the length exceeds 20. -/
def documentsAdd (decodedLen : String → Nat) (hasPost : Bool)
    (stored : Option (List Document))
    (fileName fileType fileData description notes : String)
    (now : Nat) (suffix : String) :
    AddResponse × Option (List Document) × List DocEvent :=
  if !hasPost then (AddResponse.badRequest "postId is required", stored, [])
  else if fileData = "" || description = "" then
    (AddResponse.badRequest "Missing required fields", stored, [])
  else
    let fileSize := decodedLen (base64Of fileData)
    if MAX_FILE_SIZE < fileSize then (AddResponse.sizeError, stored, [])
    else
      let doc : Document :=
        { id := "doc_" ++ toString now ++ "_" ++ suffix, fileName := fileName,
          fileType := fileType, fileSize := fileSize, imageData := fileData,
          description := description, notes := notes, timestamp := now,
          storageProvider := StorageProvider.redis, storageKey := none }
      let documents := stored.getD []
      let pushed := doc :: documents
      let newList := if 20 < pushed.length then pushed.dropLast else pushed
      (AddResponse.ok doc, some newList, [DocEvent.redisWrite])

/-- Side effects of the document-delete endpoint: the external-adapter
delete call with its storage key, and the Redis metadata write. -/
inductive DelEvent where
  | adapterDelete : String → DelEvent
  | redisWrite : DelEvent
deriving DecidableEq

/-- Responses of the document-delete endpoint. deleteFailed is the 500
response returned when the external delete raises. -/
inductive DelResponse where
  | badRequest : String → DelResponse
  | notFound : DelResponse
  | deleteFailed : DelResponse
  | success : DelResponse
deriving DecidableEq

/-- Truthy storage key of a document: the JavaScript test document.storageKey
is false for an absent key and for the empty string. -/
def keyOfDoc (d : Document) : Option String :=
  match d.storageKey with
  | some k => if k = "" then none else some k
  | none => none

/-- The document-delete endpoint (router.post api/documents/delete in
src/server/index.ts). deleteOk gives the outcome of the external delete for
a storage key (false models the adapter throwing). The external delete is
attempted only when the provider is not redis and the storage key is truthy;
on its failure the endpoint returns an error and leaves the stored list
untouched; otherwise the entry is filtered out of the list and written back. -/
def documentsDelete (deleteOk : String → Bool) (hasPost : Bool)
    (stored : Option (List Document)) (id : String) :
    DelResponse × Option (List Document) × List DelEvent :=
  if !hasPost then (DelResponse.badRequest "postId is required", stored, [])
  else if id = "" then (DelResponse.badRequest "Document ID is required", stored, [])
  else
    let documents := stored.getD []
    match documents.find? (fun d => decide (d.id = id)) with
    | none => (DelResponse.notFound, stored, [])
    | some doc =>
      let extKey : Option String :=
        if doc.storageProvider = StorageProvider.redis then none else keyOfDoc doc
      match extKey with
      | some k =>
        if deleteOk k then
          (DelResponse.success,
           some (documents.filter (fun d => !decide (d.id = id))),
           [DelEvent.adapterDelete k, DelEvent.redisWrite])
        else
          (DelResponse.deleteFailed, stored, [DelEvent.adapterDelete k])
      | none =>
        (DelResponse.success,
         some (documents.filter (fun d => !decide (d.id = id))),
         [DelEvent.redisWrite])

/-- S3 section of the storage configuration (StorageFactory in
DocumentUploader.tsx). -/
structure S3Config where
  region : String
  accessKeyId : String
  secretAccessKey : String
  bucket : String
deriving DecidableEq

/-- PostgreSQL section of the storage configuration. -/
structure PGConfig where
  connectionString : String
  ssl : Bool
  serverBaseUrl : String
deriving DecidableEq

/-- StorageConfig of the factory: the provider is kept as a raw string
because the source casts an arbitrary environment string to the provider
type without checking; validation later restricts it. -/
structure StorageConfig where
  provider : String
  s3 : Option S3Config
  postgresql : Option PGConfig
deriving DecidableEq

/-- AppConfig fields read by loadConfigurationFromAppConfig; optional string
fields are modelled as strings with the empty string for an absent value,
matching the JavaScript or-default expressions. -/
structure AppConfig where
  storageProvider : String
  awsRegion : String
  awsAccessKeyId : String
  awsSecretAccessKey : String
  awsS3Bucket : String
  postgresqlConnectionString : String
  postgresqlSsl : Bool
  serverBaseUrl : String
deriving DecidableEq

/-- Environment variables read by loadConfiguration; an unset variable is
the empty string. -/
structure EnvVars where
  STORAGE_PROVIDER : String
  AWS_REGION : String
  AWS_ACCESS_KEY_ID : String
  AWS_SECRET_ACCESS_KEY : String
  AWS_S3_BUCKET : String
  POSTGRESQL_CONNECTION_STRING : String
  POSTGRESQL_SSL : String
  SERVER_BASE_URL : String
deriving DecidableEq

/-- Embedding of the JavaScript or-default expression (value or fallback for
a falsy value). -/
def orDefault (s dflt : String) : String := if s = "" then dflt else s

/-- loadConfigurationFromAppConfig from the StorageFactory. -/
def loadConfigurationFromAppConfig (a : AppConfig) : StorageConfig :=
  { provider := a.storageProvider,
    s3 := if a.storageProvider = "s3" then
        some { region := orDefault a.awsRegion "us-east-1",
               accessKeyId := a.awsAccessKeyId,
               secretAccessKey := a.awsSecretAccessKey,
               bucket := a.awsS3Bucket }
      else none,
    postgresql := if a.storageProvider = "postgresql" then
        some { connectionString := a.postgresqlConnectionString,
               ssl := a.postgresqlSsl,
               serverBaseUrl := a.serverBaseUrl }
      else none }

/-- loadConfiguration from the StorageFactory (environment-variable path,
with the s3 default provider). -/
def loadConfiguration (e : EnvVars) : StorageConfig :=
  let provider := orDefault e.STORAGE_PROVIDER "s3"
  { provider := provider,
    s3 := if provider = "s3" then
        some { region := orDefault e.AWS_REGION "us-east-1",
               accessKeyId := e.AWS_ACCESS_KEY_ID,
               secretAccessKey := e.AWS_SECRET_ACCESS_KEY,
               bucket := e.AWS_S3_BUCKET }
      else none,
    postgresql := if provider = "postgresql" then
        some { connectionString := e.POSTGRESQL_CONNECTION_STRING,
               ssl := e.POSTGRESQL_SSL = "true",
               serverBaseUrl := e.SERVER_BASE_URL }
      else none }

/-- Dispatch of the appConfig-or-environment choice at the top of
getAdapter: configuration comes from the AppConfig argument when one is
passed and from the process environment otherwise. -/
def loadConfigOf (env : EnvVars) (appConfig? : Option AppConfig) : StorageConfig :=
  match appConfig? with
  | some a => loadConfigurationFromAppConfig a
  | none => loadConfiguration env

/-- validateConfiguration from the StorageFactory: reject an empty or
unknown provider, then check the required fields of the selected backend
(a missing sub-record behaves as all fields missing, matching the
JavaScript access on an undefined object). -/
def validateConfiguration (cfg : StorageConfig) : Except String Unit :=
  if cfg.provider = "" then
    Except.error "STORAGE_PROVIDER environment variable is required"
  else if !(cfg.provider = "s3" || cfg.provider = "postgresql") then
    Except.error ("Invalid storage provider: " ++ cfg.provider)
  else if cfg.provider = "s3" then
    match cfg.s3 with
    | some c =>
      if c.accessKeyId = "" || c.secretAccessKey = "" || c.bucket = "" then
        Except.error "Missing required S3 configuration"
      else Except.ok ()
    | none => Except.error "Missing required S3 configuration"
  else
    match cfg.postgresql with
    | some c =>
      if c.connectionString = "" || c.serverBaseUrl = "" then
        Except.error "Missing required PostgreSQL configuration"
      else Except.ok ()
    | none => Except.error "Missing required PostgreSQL configuration"

/-- Abstract view of a constructed storage adapter: its provider and the
value its isConfigured method reports. -/
structure FAdapter where
  provider : String
  configured : Bool
deriving DecidableEq

/-- Configured flag set by the S3StorageAdapter constructor
(src/server/storage/StorageAdapter.ts): with a config argument it is the
truthiness of accessKeyId, secretAccessKey and bucket of that config; with
no config it falls back to the corresponding environment variables. -/
def s3AdapterConfigured (env : EnvVars) (cfg? : Option S3Config) : Bool :=
  match cfg? with
  | some c => !(c.accessKeyId = "") && !(c.secretAccessKey = "") && !(c.bucket = "")
  | none =>
    !(env.AWS_ACCESS_KEY_ID = "") && !(env.AWS_SECRET_ACCESS_KEY = "") &&
    !(env.AWS_S3_BUCKET = "")

/-- Configured flag set by the PostgreSQLStorageAdapter constructor
(src/server/storage/PostgreSQLStorageAdapter.ts): with a config argument it
is the truthiness of connectionString and serverBaseUrl of that config;
with no config it falls back to the corresponding environment variables. -/
def pgAdapterConfigured (env : EnvVars) (cfg? : Option PGConfig) : Bool :=
  match cfg? with
  | some c => !(c.connectionString = "") && !(c.serverBaseUrl = "")
  | none => !(env.POSTGRESQL_CONNECTION_STRING = "") && !(env.SERVER_BASE_URL = "")

/-- createAdapter from the StorageFactory: construct the adapter of the
selected provider, passing it the matching sub-config (an absent sub-config
makes the constructor fall back to environment variables, which is why the
process environment is a parameter here). -/
def createAdapter (env : EnvVars) (cfg : StorageConfig) : Except String FAdapter :=
  if cfg.provider = "s3" then
    Except.ok { provider := "s3", configured := s3AdapterConfigured env cfg.s3 }
  else if cfg.provider = "postgresql" then
    Except.ok { provider := "postgresql",
                configured := pgAdapterConfigured env cfg.postgresql }
  else Except.error ("Unknown storage provider: " ++ cfg.provider)

/-- Static state of the StorageFactory class: the cached instance and the
cached configuration. -/
structure SFState where
  inst : Option FAdapter
  config : Option StorageConfig
deriving DecidableEq

/-- getAdapter from the StorageFactory. A cached instance is returned
immediately. Otherwise the configuration is loaded and stored (the source
assigns this.config before validating it), validated, the adapter is
constructed and assigned to this.instance, and only then is its
isConfigured method consulted: a false report throws a configuration error
but leaves the instance cached. -/
def getAdapter (env : EnvVars) (appConfig? : Option AppConfig) (st : SFState) :
    Except String FAdapter × SFState :=
  match st.inst with
  | some a => (Except.ok a, st)
  | none =>
    match validateConfiguration (loadConfigOf env appConfig?) with
    | Except.error e => (Except.error e, { st with config := some (loadConfigOf env appConfig?) })
    | Except.ok _ =>
      match createAdapter env (loadConfigOf env appConfig?) with
      | Except.error e => (Except.error e, { st with config := some (loadConfigOf env appConfig?) })
      | Except.ok inst =>
        if inst.configured then
          (Except.ok inst,
           { st with inst := some inst, config := some (loadConfigOf env appConfig?) })
        else
          (Except.error ("Storage provider " ++ (loadConfigOf env appConfig?).provider ++
             " is not properly configured. Check configuration in Redis."),
           { st with inst := some inst, config := some (loadConfigOf env appConfig?) })

/-- Run a sequence of getAdapter calls from a starting state, counting how
many of them construct an adapter instance (a call constructs one exactly
when it starts with no cached instance and ends with one). -/
def runGetAdapterCalls (env : EnvVars) (calls : List (Option AppConfig))
    (st : SFState) : SFState × Nat :=
  match calls with
  | [] => (st, 0)
  | c :: rest =>
    let r := getAdapter env c st
    let constructed : Nat :=
      match st.inst, r.2.inst with
      | none, some _ => 1
      | _, _ => 0
    let next := runGetAdapterCalls env rest r.2
    (next.1, constructed + next.2)

/-- Run-shape invariant of the shared retry loop: every run either succeeds
with a parsed (non-fallback) result or returns exactly the fallback built
from the file name and the kind. -/
theorem analyzeWithKindFuel_shape (o : Nat → CallOutcome) (fileName : String) (kind : FileKind) :
    ∀ fuel k,
      (analyzeWithKindFuel o fileName kind fuel k).isFallback = false ∨
      ∃ msg, (analyzeWithKindFuel o fileName kind fuel k).result =
        createFallbackResponse fileName kind msg := by
  intro fuel
  induction fuel with
  | zero =>
    intro k
    unfold analyzeWithKindFuel
    split
    · left; rfl
    · rename_i msg heq
      right; exact ⟨msg, rfl⟩
  | succ n ih =>
    intro k
    unfold analyzeWithKindFuel
    split
    · left; rfl
    · rename_i msg heq
      by_cases h : isRetryableError msg = true ∧ k < MAX_RETRIES
      · rw [if_pos h]
        simpa using ih (k + 1)
      · rw [if_neg h]
        right; exact ⟨msg, rfl⟩

/-- Run-shape invariant of the shared retry loop at any starting attempt. -/
theorem analyzeWithKindAux_ok_or_fallback (o : Nat → CallOutcome) (fileName : String)
    (kind : FileKind) (k : Nat) :
    (analyzeWithKindAux o fileName kind k).isFallback = false ∨
    ∃ msg, (analyzeWithKindAux o fileName kind k).result =
      createFallbackResponse fileName kind msg :=
  analyzeWithKindFuel_shape o fileName kind (MAX_RETRIES - k) k

/-- analyzeDocument unfolded to the shared retry loop at the detected kind. -/
theorem analyzeDocument_eq_aux (o : Nat → CallOutcome) (fileData fileType fileName : String) :
    analyzeDocument o fileData fileType fileName =
      analyzeWithKindAux o fileName (detectFileType fileData fileType) 0 := by
  unfold analyzeDocument analyzeImage analyzePDF
  cases hdt : detectFileType fileData fileType <;> rfl

/-- A fallback run of analyzeDocument carries the fixed fallback summary. -/
theorem analyzeDocument_fallback_summary (o : Nat → CallOutcome)
    (fileData fileType fileName : String)
    (h : (analyzeDocument o fileData fileType fileName).isFallback = true) :
    (analyzeDocument o fileData fileType fileName).result.summary =
      "Auto-analysis unavailable. Please add details manually." := by
  rw [analyzeDocument_eq_aux] at h ⊢
  rcases analyzeWithKindAux_ok_or_fallback o fileName (detectFileType fileData fileType) 0 with
    h0 | ⟨msg, hm⟩
  · rw [h0] at h; cases h
  · rw [hm]; rfl

/-- C4: for every input and every behavior of the external call,
analyzeDocument returns a result (it is a total function of the embedding)
and on any failure of the external call, parsing, or validation the result
is exactly the deterministic fallback built from the file name and the
detected file kind, so analysis failure never surfaces as a hard error. -/
theorem analyzeDocument_ok_or_fallback (o : Nat → CallOutcome)
    (fileData fileType fileName : String) :
    (analyzeDocument o fileData fileType fileName).isFallback = false ∨
    ∃ msg, (analyzeDocument o fileData fileType fileName).result =
      createFallbackResponse fileName (detectFileType fileData fileType) msg := by
  rw [analyzeDocument_eq_aux]
  exact analyzeWithKindAux_ok_or_fallback o fileName (detectFileType fileData fileType) 0

/-- C5: when every attempt of the external call raises a retryable error the
call is attempted exactly 1 + MAX_RETRIES = 3 times with inter-attempt
delays 1000 ms and 2000 ms (base 1000 times 2 to the attempt number) before
the fallback is returned, and a non-retryable error on the first attempt
goes to fallback after exactly one attempt with no delays. -/
theorem analyzeImage_retry_schedule (o : Nat → CallOutcome) (fileName : String) :
    ((∀ k, k ≤ MAX_RETRIES → ∃ m, o k = CallOutcome.fail m ∧ isRetryableError m = true) →
      (analyzeImage o fileName).calls = 1 + MAX_RETRIES ∧
      (analyzeImage o fileName).delays = [1000, 2000] ∧
      (analyzeImage o fileName).isFallback = true) ∧
    (∀ m, o 0 = CallOutcome.fail m → isRetryableError m = false →
      (analyzeImage o fileName).calls = 1 ∧
      (analyzeImage o fileName).delays = [] ∧
      (analyzeImage o fileName).isFallback = true) := by
  constructor
  · intro h
    obtain ⟨m0, h0, r0⟩ := h 0 (by decide)
    obtain ⟨m1, h1, r1⟩ := h 1 (by decide)
    obtain ⟨m2, h2, r2⟩ := h 2 (by decide)
    have e0 : analyzeWithKindFuel o fileName FileKind.image 2 0 =
        { result := createFallbackResponse fileName FileKind.image m2,
          isFallback := true, calls := 3, delays := [1000, 2000] } := by
      simp [analyzeWithKindFuel, attemptOutcome, h0, r0, h1, r1, h2, r2, MAX_RETRIES]
    unfold analyzeImage analyzeWithKindAux
    rw [show MAX_RETRIES - 0 = 2 from rfl, e0]
    refine ⟨by simp [MAX_RETRIES], rfl, rfl⟩
  · intro m hm hr
    have e0 : analyzeWithKindFuel o fileName FileKind.image 2 0 =
        { result := createFallbackResponse fileName FileKind.image m,
          isFallback := true, calls := 1, delays := [] } := by
      simp [analyzeWithKindFuel, attemptOutcome, hm, hr]
    unfold analyzeImage analyzeWithKindAux
    rw [show MAX_RETRIES - 0 = 2 from rfl, e0]
    exact ⟨rfl, rfl, rfl⟩

/-- Witness for the retry-schedule theorem at a concrete oracle: an oracle
that always fails with a timeout yields three attempts with delays 1000 and
2000 ms, and an oracle failing with a non-retryable message yields one. -/
theorem analyzeImage_retry_schedule_witness :
    (analyzeImage (fun _ => CallOutcome.fail "timeout") "receipt.png").calls = 1 + MAX_RETRIES ∧
    (analyzeImage (fun _ => CallOutcome.fail "timeout") "receipt.png").delays = [1000, 2000] ∧
    (analyzeImage (fun _ => CallOutcome.fail "bad request") "receipt.png").calls = 1 := by
  refine ⟨?_, ?_, ?_⟩
  · exact ((analyzeImage_retry_schedule (fun _ => CallOutcome.fail "timeout") "receipt.png").1
      (fun k hk => ⟨"timeout", rfl, by decide⟩)).1
  · exact ((analyzeImage_retry_schedule (fun _ => CallOutcome.fail "timeout") "receipt.png").1
      (fun k hk => ⟨"timeout", rfl, by decide⟩)).2.1
  · exact ((analyzeImage_retry_schedule (fun _ => CallOutcome.fail "bad request") "receipt.png").2
      "bad request" rfl (by decide)).1

/-- C6 (amended): in the response validator, sanitization is applied after
truncation: for every parsed model response with both fields present and
non-empty, the returned description equals the sanitization of the input
description truncated to 100 characters, the returned summary equals the
sanitization of the input summary truncated to 500 characters, and both
outputs respect the length caps. -/
theorem parseGeminiResponse_truncate_then_sanitize (d s : String)
    (hd : d ≠ "") (hs : s ≠ "") :
    parseGeminiResponse (RawResponse.json (some d) (some s)) =
      Except.ok { description := sanitizeText (strTake d 100),
                  summary := sanitizeText (strTake s 500) } ∧
    (sanitizeText (strTake d 100)).length ≤ 100 ∧
    (sanitizeText (strTake s 500)).length ≤ 500 := by
  have hlen : ∀ (t : String) (n : Nat), (sanitizeText (strTake t n)).length ≤ n := by
    intro t n
    have hr : (sanitizeText (strTake t n)).length =
        ((t.data.take n).filter (fun c => !isStrippedControl c)).length := rfl
    rw [hr]
    exact le_trans (List.length_filter_le _ _)
      (by rw [List.length_take]; exact Nat.min_le_left _ _)
  refine ⟨?_, hlen d 100, hlen s 500⟩
  simp [parseGeminiResponse, hd, hs]

/-- Witness for the validator theorem at concrete non-empty fields. -/
theorem parseGeminiResponse_truncate_then_sanitize_witness :
    parseGeminiResponse (RawResponse.json (some "abc") (some "xyz")) =
      Except.ok { description := sanitizeText (strTake "abc" 100),
                  summary := sanitizeText (strTake "xyz" 500) } ∧
    (sanitizeText (strTake "abc" 100)).length ≤ 100 :=
  ⟨(parseGeminiResponse_truncate_then_sanitize "abc" "xyz" (by decide) (by decide)).1,
   (parseGeminiResponse_truncate_then_sanitize "abc" "xyz" (by decide) (by decide)).2.1⟩

/-- Counterexample to C6 as stated: on a description consisting of one
control character followed by 100 letters, the validator does not return
the sanitized description truncated to 100 characters (that would keep 100
letters; the code truncates first and then sanitizes, keeping 99). -/
theorem parseGeminiResponse_sanitize_first_cex :
    parseGeminiResponse (RawResponse.json
        (some (String.mk (Char.ofNat 0 :: List.replicate 100 'a'))) (some "s")) ≠
      Except.ok { description :=
                    strTake (sanitizeText (String.mk (Char.ofNat 0 :: List.replicate 100 'a'))) 100,
                  summary := strTake (sanitizeText "s") 500 } := by
  decide

/-- Pointwise comparison of the sanitizeText character class with the class
of ASCII control characters other than tab, newline and carriage return. -/
theorem isStrippedControl_eq (c : Char) :
    isStrippedControl c =
      ((decide (c.toNat < 0x20) || decide (c.toNat = 0x7F)) &&
       !decide (c.toNat = 9) && !decide (c.toNat = 10) && !decide (c.toNat = 13)) := by
  rw [Bool.eq_iff_iff]
  simp only [isStrippedControl, Bool.or_eq_true, Bool.and_eq_true, Bool.not_eq_true',
    decide_eq_true_eq, decide_eq_false_iff_not]
  omega

/-- C7 (amended): sanitizeText removes every ASCII control character
(U+0000 to U+001F and U+007F) except tab (9), newline (10) and carriage
return (13), and leaves all other characters unchanged in order. -/
theorem sanitizeText_strips_controls_except_tab_lf_cr (s : String) :
    sanitizeText s = String.mk (s.data.filter (fun c =>
      !((decide (c.toNat < 0x20) || decide (c.toNat = 0x7F)) &&
        !decide (c.toNat = 9) && !decide (c.toNat = 10) && !decide (c.toNat = 13)))) := by
  unfold sanitizeText
  congr 1
  apply List.filter_congr
  intro c _
  rw [isStrippedControl_eq]

/-- Counterexample to C7 as stated: carriage return (U+000D) is a control
character other than newline and tab, yet sanitizeText keeps it, so the
function does not remove every control character except newline and tab. -/
theorem sanitizeText_keeps_carriage_return_cex :
    sanitizeText (String.mk [Char.ofNat 13]) = String.mk [Char.ofNat 13] ∧
    (Char.ofNat 13).toNat < 0x20 ∧
    (Char.ofNat 13).toNat ≠ 10 ∧ (Char.ofNat 13).toNat ≠ 9 ∧
    sanitizeText (String.mk [Char.ofNat 13]) ≠
      String.mk ((String.mk [Char.ofNat 13]).data.filter (fun c =>
        !((decide (c.toNat < 0x20) || decide (c.toNat = 0x7F)) &&
          !decide (c.toNat = 9) && !decide (c.toNat = 10)))) := by
  decide

/-- The fallback summary text contains the marker the endpoint tests for. -/
theorem fallback_summary_has_marker :
    hasFallbackMarker "Auto-analysis unavailable. Please add details manually." = true := by
  decide

/-- C1: on the analyze endpoint, a stored counter at or above RATE_LIMIT is
rejected with 429 while the state is unchanged and no event (in particular
no increment and no external call) occurs; below the limit the counter is
incremented by one and the request is not quota-rejected, and the increment
is the first event of the trace, so it precedes any external call. A stored
count of 99 brings the counter to exactly the limit and is allowed. -/
theorem analyzeEndpoint_rate_limit (o : Nat → CallOutcome) (fp : String → String)
    (user fileData fileType fileName : String) (st : AnalyzeState) (huser : user ≠ "") :
    (RATE_LIMIT ≤ st.rateStored.getD 0 →
      analyzeEndpoint o fp true user fileData fileType fileName st =
        (AResponse.rateLimited, st, [])) ∧
    (st.rateStored.getD 0 < RATE_LIMIT →
      (analyzeEndpoint o fp true user fileData fileType fileName st).1 ≠ AResponse.rateLimited ∧
      (analyzeEndpoint o fp true user fileData fileType fileName st).2.1.rateStored =
        some (st.rateStored.getD 0 + 1) ∧
      ∃ tail, (analyzeEndpoint o fp true user fileData fileType fileName st).2.2 =
        AEvent.rateIncr :: tail ∧ AEvent.rateIncr ∉ tail) := by
  constructor
  · intro hge
    simp [analyzeEndpoint, huser, hge]
  · intro hlt
    have hnge : ¬ RATE_LIMIT ≤ st.rateStored.getD 0 := by omega
    unfold analyzeEndpoint
    by_cases h1 : fileData = ""
    · simp [huser, hnge, h1]
    by_cases h2 : fileType = ""
    · simp [huser, hnge, h1, h2]
    by_cases h3 : fileName = ""
    · simp [huser, hnge, h1, h2, h3]
    by_cases h4 : base64Of fileData = ""
    · simp [huser, hnge, h1, h2, h3, h4]
    simp only [huser, hnge, h1, h2, h3, h4]
    cases hc : List.lookup (cacheKeyOf fp fileData) st.cache with
    | some cached => simp [huser, hnge, h1, h2, h3, h4, hc]
    | none =>
      by_cases hmk : hasFallbackMarker
          (analyzeDocument o fileData fileType fileName).result.summary = true
      · simp [huser, hnge, h1, h2, h3, h4, hc, hmk]
      · simp [huser, hnge, h1, h2, h3, h4, hc, hmk]

/-- Witness for the rate-limit theorem: with a stored count of 100 the
request is rejected and the state untouched, and with a stored count of 99
(the request reaching exactly the limit) it is allowed and the counter
becomes 100. -/
theorem analyzeEndpoint_rate_limit_witness :
    analyzeEndpoint (fun _ => CallOutcome.fail "x") (fun s => s) true "u" "d" "t" "n"
        { rateStored := some 100, cache := [] } =
      (AResponse.rateLimited, { rateStored := some 100, cache := [] }, []) ∧
    (analyzeEndpoint (fun _ => CallOutcome.fail "x") (fun s => s) true "u" "d" "t" "n"
        { rateStored := some 99, cache := [] }).1 ≠ AResponse.rateLimited ∧
    (analyzeEndpoint (fun _ => CallOutcome.fail "x") (fun s => s) true "u" "d" "t" "n"
        { rateStored := some 99, cache := [] }).2.1.rateStored = some 100 := by
  refine ⟨?_, ?_, ?_⟩
  · exact (analyzeEndpoint_rate_limit (fun _ => CallOutcome.fail "x") (fun s => s)
      "u" "d" "t" "n" { rateStored := some 100, cache := [] } (by decide)).1 (by decide)
  · exact ((analyzeEndpoint_rate_limit (fun _ => CallOutcome.fail "x") (fun s => s)
      "u" "d" "t" "n" { rateStored := some 99, cache := [] } (by decide)).2 (by decide)).1
  · exact ((analyzeEndpoint_rate_limit (fun _ => CallOutcome.fail "x") (fun s => s)
      "u" "d" "t" "n" { rateStored := some 99, cache := [] } (by decide)).2 (by decide)).2.1

/-- C2 (amended): on a cache miss the analyze endpoint writes the result to
the cache if and only if the summary does not contain the fallback marker
text; every fallback result carries the marker and is therefore never
written, and when the marker is absent the entry is stored under the
analysis cache key. -/
theorem analyzeEndpoint_cache_write_iff_marker (o : Nat → CallOutcome) (fp : String → String)
    (user fileData fileType fileName : String) (st : AnalyzeState)
    (huser : user ≠ "") (hrate : st.rateStored.getD 0 < RATE_LIMIT)
    (hfd : fileData ≠ "") (hft : fileType ≠ "") (hfn : fileName ≠ "")
    (hb64 : base64Of fileData ≠ "")
    (hmiss : List.lookup (cacheKeyOf fp fileData) st.cache = none) :
    (AEvent.cacheWrite ∈ (analyzeEndpoint o fp true user fileData fileType fileName st).2.2 ↔
      hasFallbackMarker (analyzeDocument o fileData fileType fileName).result.summary = false) ∧
    ((analyzeDocument o fileData fileType fileName).isFallback = true →
      AEvent.cacheWrite ∉ (analyzeEndpoint o fp true user fileData fileType fileName st).2.2) ∧
    (hasFallbackMarker (analyzeDocument o fileData fileType fileName).result.summary = false →
      List.lookup (cacheKeyOf fp fileData)
          (analyzeEndpoint o fp true user fileData fileType fileName st).2.1.cache =
        some (analyzeDocument o fileData fileType fileName).result) ∧
    (hasFallbackMarker (analyzeDocument o fileData fileType fileName).result.summary = true →
      (analyzeEndpoint o fp true user fileData fileType fileName st).2.1.cache = st.cache) := by
  have hnge : ¬ RATE_LIMIT ≤ st.rateStored.getD 0 := by omega
  by_cases hmk : hasFallbackMarker
      (analyzeDocument o fileData fileType fileName).result.summary = true
  · have hred : analyzeEndpoint o fp true user fileData fileType fileName st =
        (AResponse.ok (analyzeDocument o fileData fileType fileName).result,
         { st with rateStored := some (st.rateStored.getD 0 + 1) },
         [AEvent.rateIncr, AEvent.aiCall]) := by
      unfold analyzeEndpoint
      simp [huser, hnge, hfd, hft, hfn, hb64, hmiss, hmk]
    rw [hred]
    refine ⟨by simp [hmk], fun _ => by simp, fun hfalse => ?_, fun _ => rfl⟩
    rw [hmk] at hfalse
    cases hfalse
  · have hmkf : hasFallbackMarker
        (analyzeDocument o fileData fileType fileName).result.summary = false := by
      simpa using hmk
    have hred : analyzeEndpoint o fp true user fileData fileType fileName st =
        (AResponse.ok (analyzeDocument o fileData fileType fileName).result,
         { st with rateStored := some (st.rateStored.getD 0 + 1),
                   cache := (cacheKeyOf fp fileData,
                     (analyzeDocument o fileData fileType fileName).result) :: st.cache },
         [AEvent.rateIncr, AEvent.aiCall, AEvent.cacheWrite]) := by
      unfold analyzeEndpoint
      simp [huser, hnge, hfd, hft, hfn, hb64, hmiss, hmkf]
    rw [hred]
    refine ⟨by simp [hmkf], fun hfb => ?_, fun _ => by simp [List.lookup], fun htrue => ?_⟩
    · exfalso
      have hsum := analyzeDocument_fallback_summary o fileData fileType fileName hfb
      rw [hsum] at hmkf
      have := fallback_summary_has_marker
      rw [this] at hmkf
      cases hmkf
    · rw [htrue] at hmkf
      cases hmkf

/-- Witness for the cache-write theorem: a parsed success without the marker
is written to the cache. -/
theorem analyzeEndpoint_cache_write_iff_marker_witness :
    AEvent.cacheWrite ∈
      (analyzeEndpoint (fun _ => CallOutcome.reply (RawResponse.json (some "a") (some "b")))
        (fun s => s) true "u" "QUJD" "image/png" "a.png"
        { rateStored := none, cache := [] }).2.2 := by
  exact ((analyzeEndpoint_cache_write_iff_marker
      (fun _ => CallOutcome.reply (RawResponse.json (some "a") (some "b")))
      (fun s => s) "u" "QUJD" "image/png" "a.png" { rateStored := none, cache := [] }
      (by decide) (by decide) (by decide) (by decide) (by decide) (by decide)
      (by decide)).1).mpr (by decide)

/-- Counterexample to C2 as stated: a successful, non-fallback analysis
whose summary happens to contain the marker text is not written to the
cache, so the write does not happen if and only if the result is not a
fallback. -/
theorem analyzeEndpoint_cache_iff_fallback_cex :
    (analyzeDocument
        (fun _ => CallOutcome.reply
          (RawResponse.json (some "a") (some "Auto-analysis unavailable")))
        "QUJD" "image/png" "a.png").isFallback = false ∧
    AEvent.cacheWrite ∉
      (analyzeEndpoint
        (fun _ => CallOutcome.reply
          (RawResponse.json (some "a") (some "Auto-analysis unavailable")))
        (fun s => s) true "u" "QUJD" "image/png" "a.png"
        { rateStored := none, cache := [] }).2.2 ∧
    (analyzeEndpoint
        (fun _ => CallOutcome.reply
          (RawResponse.json (some "a") (some "Auto-analysis unavailable")))
        (fun s => s) true "u" "QUJD" "image/png" "a.png"
        { rateStored := none, cache := [] }).2.1.cache = [] := by
  decide

/-- C3 (amended): the document-add endpoint never calls a storage adapter
(no adapterUpload event ever occurs) and every successfully stored document
carries the redis storage provider, independent of any configured backend. -/
theorem documentsAdd_never_uses_adapter (decodedLen : String → Nat) (hasPost : Bool)
    (stored : Option (List Document))
    (fileName fileType fileData description notes : String) (now : Nat) (suffix : String) :
    DocEvent.adapterUpload ∉
      (documentsAdd decodedLen hasPost stored fileName fileType fileData
        description notes now suffix).2.2 ∧
    ∀ d, (documentsAdd decodedLen hasPost stored fileName fileType fileData
        description notes now suffix).1 = AddResponse.ok d →
      d.storageProvider = StorageProvider.redis := by
  cases hasPost with
  | false => simp [documentsAdd]
  | true =>
    by_cases h2 : (fileData = "" || description = "") = true
    · simp [documentsAdd, h2]
    · rw [Bool.not_eq_true] at h2
      by_cases h3 : MAX_FILE_SIZE < decodedLen (base64Of fileData)
      · simp [documentsAdd, h2, h3]
      · constructor
        · simp [documentsAdd, h2, h3]
        · intro d hd
          simp [documentsAdd, h2, h3] at hd
          rw [← hd]

/-- Witness for the no-adapter theorem at one concrete accepted upload. -/
theorem documentsAdd_never_uses_adapter_witness :
    DocEvent.adapterUpload ∉
      (documentsAdd (fun _ => 4) true (some []) "a.pdf" "application/pdf" "QUJDRA=="
        "d" "" 5 "x1").2.2 ∧
    ({ id := "doc_5_x1", fileName := "a.pdf", fileType := "application/pdf", fileSize := 4,
       imageData := "QUJDRA==", description := "d", notes := "", timestamp := 5,
       storageProvider := StorageProvider.redis, storageKey := none } : Document).storageProvider =
      StorageProvider.redis :=
  ⟨(documentsAdd_never_uses_adapter (fun _ => 4) true (some []) "a.pdf" "application/pdf"
      "QUJDRA==" "d" "" 5 "x1").1,
   (documentsAdd_never_uses_adapter (fun _ => 4) true (some []) "a.pdf" "application/pdf"
      "QUJDRA==" "d" "" 5 "x1").2
     { id := "doc_5_x1", fileName := "a.pdf", fileType := "application/pdf", fileSize := 4,
       imageData := "QUJDRA==", description := "d", notes := "", timestamp := 5,
       storageProvider := StorageProvider.redis, storageKey := none } (by decide)⟩

/-- Counterexample to C3 as stated: a concrete accepted upload produces only
a Redis metadata write (no storage-adapter upload operation is invoked) and
the stored document carries provider redis with no storage key, so the
upload flow does not route the binary content through the configured
StorageAdapter. -/
theorem documentsAdd_no_adapter_cex :
    (documentsAdd (fun _ => 4) true (some []) "a.pdf" "application/pdf" "QUJDRA=="
        "d" "" 5 "x1").2.2 = [DocEvent.redisWrite] ∧
    (documentsAdd (fun _ => 4) true (some []) "a.pdf" "application/pdf" "QUJDRA=="
        "d" "" 5 "x1").1 =
      AddResponse.ok
        { id := "doc_5_x1", fileName := "a.pdf", fileType := "application/pdf", fileSize := 4,
          imageData := "QUJDRA==", description := "d", notes := "", timestamp := 5,
          storageProvider := StorageProvider.redis, storageKey := none } := by
  decide

/-- C10: an upload whose decoded content exceeds MAX_FILE_SIZE = 512000
bytes is rejected before any write with the stored list unchanged; an
accepted upload prepends the new document and bounds the list to at most 20
entries, dropping the oldest beyond the cap. -/
theorem documentsAdd_size_limit_and_list_bound (decodedLen : String → Nat)
    (stored : Option (List Document))
    (fileName fileType fileData description notes : String) (now : Nat) (suffix : String)
    (hfd : fileData ≠ "") (hdesc : description ≠ "") :
    (MAX_FILE_SIZE < decodedLen (base64Of fileData) →
      documentsAdd decodedLen true stored fileName fileType fileData description notes
        now suffix = (AddResponse.sizeError, stored, [])) ∧
    (decodedLen (base64Of fileData) ≤ MAX_FILE_SIZE → (stored.getD []).length ≤ 20 →
      ∃ d, (documentsAdd decodedLen true stored fileName fileType fileData description notes
          now suffix).1 = AddResponse.ok d ∧
        (documentsAdd decodedLen true stored fileName fileType fileData description notes
          now suffix).2.1 = some ((d :: stored.getD []).take 20) ∧
        ((documentsAdd decodedLen true stored fileName fileType fileData description notes
          now suffix).2.1.getD []).length ≤ 20) := by
  constructor
  · intro hgt
    simp [documentsAdd, hfd, hdesc, hgt]
  · intro hle hlen
    have hngt : ¬ MAX_FILE_SIZE < decodedLen (base64Of fileData) := by omega
    refine ⟨{ id := "doc_" ++ toString now ++ "_" ++ suffix, fileName := fileName,
              fileType := fileType, fileSize := decodedLen (base64Of fileData),
              imageData := fileData, description := description, notes := notes,
              timestamp := now, storageProvider := StorageProvider.redis,
              storageKey := none }, ?_, ?_, ?_⟩
    · simp [documentsAdd, hfd, hdesc, hngt]
    · simp only [documentsAdd, hfd, hdesc, hngt]
      by_cases hfull : (stored.getD []).length = 20
      · have h21 : 20 < ((⟨"doc_" ++ toString now ++ "_" ++ suffix, fileName, fileType,
            decodedLen (base64Of fileData), fileData, description, notes, now,
            StorageProvider.redis, none⟩ : Document) :: stored.getD []).length := by
          simp [hfull]
        simp only [hfd, hdesc, hngt, if_pos h21]
        rw [List.dropLast_eq_take]
        simp [hfull]
      · have hlt : (stored.getD []).length < 20 := by omega
        have hn21 : ¬ 20 < ((⟨"doc_" ++ toString now ++ "_" ++ suffix, fileName, fileType,
            decodedLen (base64Of fileData), fileData, description, notes, now,
            StorageProvider.redis, none⟩ : Document) :: stored.getD []).length := by
          simp; omega
        simp only [hfd, hdesc, hngt, if_neg hn21]
        rw [List.take_of_length_le (by simp; omega)]
        simp
    · simp only [documentsAdd, hfd, hdesc, hngt]
      by_cases h21 : 20 < ((⟨"doc_" ++ toString now ++ "_" ++ suffix, fileName, fileType,
          decodedLen (base64Of fileData), fileData, description, notes, now,
          StorageProvider.redis, none⟩ : Document) :: stored.getD []).length
      · simp only [if_pos h21]
        simp [List.length_dropLast]
        omega
      · simp only [if_neg h21]
        simp at h21 ⊢
        omega

/-- Witness for the size-limit theorem: a 512001-byte decode is rejected
with the list unchanged, and a 4-byte decode onto an empty list is stored
as the single entry. -/
theorem documentsAdd_size_limit_and_list_bound_witness :
    documentsAdd (fun _ => 512001) true (some []) "a.pdf" "application/pdf" "QUJDRA=="
      "d" "" 5 "x1" = (AddResponse.sizeError, some [], []) ∧
    ∃ d, (documentsAdd (fun _ => 4) true (some []) "a.pdf" "application/pdf" "QUJDRA=="
        "d" "" 5 "x1").1 = AddResponse.ok d ∧
      (documentsAdd (fun _ => 4) true (some []) "a.pdf" "application/pdf" "QUJDRA=="
        "d" "" 5 "x1").2.1 = some ((d :: ((some []).getD [])).take 20) :=
  ⟨(documentsAdd_size_limit_and_list_bound (fun _ => 512001) (some []) "a.pdf"
      "application/pdf" "QUJDRA==" "d" "" 5 "x1" (by decide) (by decide)).1 (by decide),
   (((documentsAdd_size_limit_and_list_bound (fun _ => 4) (some []) "a.pdf"
      "application/pdf" "QUJDRA==" "d" "" 5 "x1" (by decide) (by decide)).2 (by decide)
      (by decide)).elim (fun d hd => ⟨d, hd.1, hd.2.1⟩))⟩

/-- C8 (amended): for a delete request on a document whose provider is an
external backend and whose storage key is present and non-empty, the
metadata entry is removed exactly when the backend delete succeeds: a
failing delete yields an error response with the stored list unchanged
(still containing the entry), and a successful delete filters the entry
out. A document marked external but lacking a truthy storage key is removed
without any backend call. -/
theorem documentsDelete_external_iff_success (deleteOk : String → Bool)
    (stored : Option (List Document)) (id : String) (doc : Document) (k : String)
    (hid : id ≠ "")
    (hfind : (stored.getD []).find? (fun d => decide (d.id = id)) = some doc)
    (hext : doc.storageProvider ≠ StorageProvider.redis)
    (hkey : doc.storageKey = some k) (hk : k ≠ "") :
    (deleteOk k = false →
      (documentsDelete deleteOk true stored id).1 = DelResponse.deleteFailed ∧
      (documentsDelete deleteOk true stored id).2.1 = stored ∧
      doc ∈ (documentsDelete deleteOk true stored id).2.1.getD []) ∧
    (deleteOk k = true →
      (documentsDelete deleteOk true stored id).1 = DelResponse.success ∧
      (documentsDelete deleteOk true stored id).2.1 =
        some ((stored.getD []).filter (fun d => !decide (d.id = id))) ∧
      ∀ d ∈ (documentsDelete deleteOk true stored id).2.1.getD [], d.id ≠ id) := by
  have hkey2 : keyOfDoc doc = some k := by
    simp [keyOfDoc, hkey, hk]
  constructor
  · intro hfail
    have hred : documentsDelete deleteOk true stored id =
        (DelResponse.deleteFailed, stored, [DelEvent.adapterDelete k]) := by
      unfold documentsDelete
      simp [hid, hfind, hext, hkey2, hfail]
    rw [hred]
    exact ⟨rfl, rfl, List.mem_of_find?_eq_some hfind⟩
  · intro hsucc
    have hred : documentsDelete deleteOk true stored id =
        (DelResponse.success,
         some ((stored.getD []).filter (fun d => !decide (d.id = id))),
         [DelEvent.adapterDelete k, DelEvent.redisWrite]) := by
      unfold documentsDelete
      simp [hid, hfind, hext, hkey2, hsucc]
    rw [hred]
    refine ⟨rfl, rfl, ?_⟩
    intro d hd
    simp only [Option.getD_some, List.mem_filter, Bool.not_eq_true', decide_eq_false_iff_not]
      at hd
    exact hd.2

/-- Witness for the delete-safety theorem at one concrete external document,
exercising both the failing and the succeeding backend delete. -/
theorem documentsDelete_external_iff_success_witness :
    ((documentsDelete (fun _ => false) true
        (some [{ id := "d1", fileName := "f", fileType := "application/pdf", fileSize := 1,
                 imageData := "", description := "x", notes := "", timestamp := 0,
                 storageProvider := StorageProvider.s3, storageKey := some "k9" }]) "d1").1 =
      DelResponse.deleteFailed ∧
     { id := "d1", fileName := "f", fileType := "application/pdf", fileSize := 1,
       imageData := "", description := "x", notes := "", timestamp := 0,
       storageProvider := StorageProvider.s3, storageKey := some "k9" } ∈
      (documentsDelete (fun _ => false) true
        (some [{ id := "d1", fileName := "f", fileType := "application/pdf", fileSize := 1,
                 imageData := "", description := "x", notes := "", timestamp := 0,
                 storageProvider := StorageProvider.s3, storageKey := some "k9" }]) "d1").2.1.getD []) ∧
    (documentsDelete (fun _ => true) true
        (some [{ id := "d1", fileName := "f", fileType := "application/pdf", fileSize := 1,
                 imageData := "", description := "x", notes := "", timestamp := 0,
                 storageProvider := StorageProvider.s3, storageKey := some "k9" }]) "d1").1 =
      DelResponse.success := by
  refine ⟨⟨?_, ?_⟩, ?_⟩
  · exact ((documentsDelete_external_iff_success (fun _ => false)
      (some [{ id := "d1", fileName := "f", fileType := "application/pdf", fileSize := 1,
               imageData := "", description := "x", notes := "", timestamp := 0,
               storageProvider := StorageProvider.s3, storageKey := some "k9" }]) "d1"
      { id := "d1", fileName := "f", fileType := "application/pdf", fileSize := 1,
        imageData := "", description := "x", notes := "", timestamp := 0,
        storageProvider := StorageProvider.s3, storageKey := some "k9" } "k9"
      (by decide) (by decide) (by decide) (by decide) (by decide)).1 (by decide)).1
  · exact ((documentsDelete_external_iff_success (fun _ => false)
      (some [{ id := "d1", fileName := "f", fileType := "application/pdf", fileSize := 1,
               imageData := "", description := "x", notes := "", timestamp := 0,
               storageProvider := StorageProvider.s3, storageKey := some "k9" }]) "d1"
      { id := "d1", fileName := "f", fileType := "application/pdf", fileSize := 1,
        imageData := "", description := "x", notes := "", timestamp := 0,
        storageProvider := StorageProvider.s3, storageKey := some "k9" } "k9"
      (by decide) (by decide) (by decide) (by decide) (by decide)).1 (by decide)).2.2
  · exact ((documentsDelete_external_iff_success (fun _ => true)
      (some [{ id := "d1", fileName := "f", fileType := "application/pdf", fileSize := 1,
               imageData := "", description := "x", notes := "", timestamp := 0,
               storageProvider := StorageProvider.s3, storageKey := some "k9" }]) "d1"
      { id := "d1", fileName := "f", fileType := "application/pdf", fileSize := 1,
        imageData := "", description := "x", notes := "", timestamp := 0,
        storageProvider := StorageProvider.s3, storageKey := some "k9" } "k9"
      (by decide) (by decide) (by decide) (by decide) (by decide)).2 (by decide)).1

/-- Counterexample to C8 as stated: a document marked as stored in an
external backend but with no storage key is removed from the metadata list
with a success response and without the backend delete being attempted,
even though the backend delete (which always raises here) never succeeded. -/
theorem documentsDelete_missing_key_cex :
    (documentsDelete (fun _ => false) true
        (some [{ id := "d1", fileName := "f", fileType := "application/pdf", fileSize := 1,
                 imageData := "", description := "x", notes := "", timestamp := 0,
                 storageProvider := StorageProvider.s3, storageKey := none }]) "d1") =
      (DelResponse.success, some [], [DelEvent.redisWrite]) := by
  decide

/-- A getAdapter call with a cached instance returns it with the state
unchanged, performing no validation and no configuration check. -/
theorem getAdapter_cached (env : EnvVars) (appConfig? : Option AppConfig) (st : SFState)
    (a : FAdapter) (h : st.inst = some a) :
    getAdapter env appConfig? st = (Except.ok a, st) := by
  unfold getAdapter
  rw [h]

/-- A run of getAdapter calls starting with a cached instance constructs
nothing. -/
theorem runGetAdapterCalls_zero_of_some (env : EnvVars) :
    ∀ (calls : List (Option AppConfig)) (st : SFState) (a : FAdapter), st.inst = some a →
      (runGetAdapterCalls env calls st).2 = 0 := by
  intro calls
  induction calls with
  | nil => intro st a h; rfl
  | cons c rest ih =>
    intro st a h
    unfold runGetAdapterCalls
    rw [getAdapter_cached env c st a h]
    simp [h]
    exact ih st a h

/-- Any run of getAdapter calls constructs at most one adapter instance. -/
theorem runGetAdapterCalls_le_one (env : EnvVars) :
    ∀ (calls : List (Option AppConfig)) (st : SFState),
      (runGetAdapterCalls env calls st).2 ≤ 1 := by
  intro calls
  induction calls with
  | nil => intro st; simp [runGetAdapterCalls]
  | cons c rest ih =>
    intro st
    unfold runGetAdapterCalls
    cases hinst : st.inst with
    | some a =>
      rw [getAdapter_cached env c st a hinst]
      simp [hinst]
      exact le_trans (ih st) (by omega)
    | none =>
      cases h2 : ((getAdapter env c st).2).inst with
      | none =>
        simp [hinst, h2]
        exact ih _
      | some b =>
        simp [hinst, h2,
          runGetAdapterCalls_zero_of_some env rest (getAdapter env c st).2 b h2]

/-- Configuration validation is exactly strong enough for construction:
when validateConfiguration accepts a configuration, the adapter that
createAdapter builds from it reports itself configured, because each
constructor derives its configured flag from the very fields that the
validation of its provider just checked non-empty. -/
theorem createAdapter_configured_of_validated (env : EnvVars) (cfg : StorageConfig)
    (u : Unit) (a : FAdapter)
    (hval : validateConfiguration cfg = Except.ok u)
    (hcr : createAdapter env cfg = Except.ok a) :
    a.configured = true := by
  by_cases h0 : cfg.provider = ""
  · simp [validateConfiguration, h0] at hval
  by_cases hs : cfg.provider = "s3"
  · cases hcs : cfg.s3 with
    | none => simp [validateConfiguration, hs, hcs] at hval
    | some c =>
      by_cases hempty : (c.accessKeyId = "" || c.secretAccessKey = "" || c.bucket = "") = true
      · simp [validateConfiguration, hs, hcs, hempty] at hval
      · rw [Bool.not_eq_true] at hempty
        simp only [Bool.or_eq_false_iff, decide_eq_false_iff_not] at hempty
        obtain ⟨⟨h1, h2⟩, h3⟩ := hempty
        unfold createAdapter at hcr
        rw [if_pos hs, hcs] at hcr
        simp only [Except.ok.injEq] at hcr
        rw [← hcr]
        simp [s3AdapterConfigured, h1, h2, h3]
  · by_cases hp : cfg.provider = "postgresql"
    · cases hcp : cfg.postgresql with
      | none => simp [validateConfiguration, h0, hs, hp, hcp] at hval
      | some c =>
        by_cases hempty : (c.connectionString = "" || c.serverBaseUrl = "") = true
        · simp [validateConfiguration, h0, hs, hp, hcp, hempty] at hval
        · rw [Bool.not_eq_true] at hempty
          simp only [Bool.or_eq_false_iff, decide_eq_false_iff_not] at hempty
          obtain ⟨h1, h2⟩ := hempty
          unfold createAdapter at hcr
          rw [if_neg hs, if_pos hp, hcp] at hcr
          simp only [Except.ok.injEq] at hcr
          rw [← hcr]
          simp [pgAdapterConfigured, h1, h2]
    · simp [validateConfiguration, h0, hs, hp] at hval

/-- Single-call preservation: from a state whose cached instance (if any)
reports itself configured, a getAdapter call only ever returns a configured
adapter (or throws), and leaves the state in the same shape; the
throw-after-caching branch for an unconfigured construction is unreachable
because validation already guarantees the constructed adapter is
configured. -/
theorem getAdapter_preserves_configured (env : EnvVars) (appConfig? : Option AppConfig)
    (st : SFState) (res : Except String FAdapter) (st2 : SFState)
    (hgood : ∀ b, st.inst = some b → b.configured = true)
    (heq : getAdapter env appConfig? st = (res, st2)) :
    (∀ a, res = Except.ok a → a.configured = true) ∧
    (∀ b, st2.inst = some b → b.configured = true) := by
  unfold getAdapter at heq
  cases hinst : st.inst with
  | some b =>
    rw [hinst] at heq
    simp only [Prod.mk.injEq] at heq
    obtain ⟨hres, hst⟩ := heq
    constructor
    · intro a ha
      rw [← hres] at ha
      simp only [Except.ok.injEq] at ha
      rw [← ha]
      exact hgood b hinst
    · intro c hc
      rw [← hst] at hc
      exact hgood c hc
  | none =>
    rw [hinst] at heq
    split at heq
    · rename_i b hb
      cases hb
    · split at heq
      · simp only [Prod.mk.injEq] at heq
        obtain ⟨hres, hst⟩ := heq
        constructor
        · intro a ha
          rw [← hres] at ha
          cases ha
        · intro c hc
          rw [← hst] at hc
          exact Option.noConfusion hc
      · split at heq
        · simp only [Prod.mk.injEq] at heq
          obtain ⟨hres, hst⟩ := heq
          constructor
          · intro a ha
            rw [← hres] at ha
            cases ha
          · intro c hc
            rw [← hst] at hc
            exact Option.noConfusion hc
        · split at heq
          · rename_i hcond
            simp only [Prod.mk.injEq] at heq
            obtain ⟨hres, hst⟩ := heq
            constructor
            · intro a ha
              rw [← hres] at ha
              simp only [Except.ok.injEq] at ha
              rw [← ha]
              exact hcond
            · intro c hc
              rw [← hst] at hc
              injection hc with hc2
              rw [← hc2]
              exact hcond
          · rename_i hcond
            exact absurd
              (createAdapter_configured_of_validated env (loadConfigOf env appConfig?) _ _
                (by assumption) (by assumption)) hcond

/-- C9: the storage factory constructs at most one adapter instance over
any sequence of getAdapter calls, and — starting from any state whose
cached instance, if present, is fully configured, in particular the fresh
factory state — every getAdapter call either throws a configuration error
or returns an adapter whose isConfigured() reports true, and the state
keeps that shape; it never hands out a half-configured adapter, because
each adapter constructor derives its configured flag from exactly the
fields the validation of its provider just checked. -/
theorem storageFactory_singleton_and_configured :
    (∀ (env : EnvVars) (calls : List (Option AppConfig)) (st : SFState),
      (runGetAdapterCalls env calls st).2 ≤ 1) ∧
    (∀ (env : EnvVars) (appConfig? : Option AppConfig) (st : SFState)
        (res : Except String FAdapter) (st2 : SFState),
      (∀ b, st.inst = some b → b.configured = true) →
      getAdapter env appConfig? st = (res, st2) →
      (∀ a, res = Except.ok a → a.configured = true) ∧
      (∀ b, st2.inst = some b → b.configured = true)) :=
  ⟨fun env calls st => runGetAdapterCalls_le_one env calls st,
   fun env appConfig? st res st2 hgood heq =>
     getAdapter_preserves_configured env appConfig? st res st2 hgood heq⟩

/-- Witness for the factory theorem at concrete inputs: a run of two
getAdapter calls from the fresh state constructs at most one instance, and
a fresh call with a fully populated s3 AppConfig returns an adapter whose
isConfigured() reports true. -/
theorem storageFactory_singleton_and_configured_witness :
    (runGetAdapterCalls
      { STORAGE_PROVIDER := "", AWS_REGION := "", AWS_ACCESS_KEY_ID := "",
        AWS_SECRET_ACCESS_KEY := "", AWS_S3_BUCKET := "",
        POSTGRESQL_CONNECTION_STRING := "", POSTGRESQL_SSL := "", SERVER_BASE_URL := "" }
      [some { storageProvider := "s3", awsRegion := "r", awsAccessKeyId := "k",
              awsSecretAccessKey := "sec", awsS3Bucket := "b",
              postgresqlConnectionString := "", postgresqlSsl := false, serverBaseUrl := "" },
       some { storageProvider := "s3", awsRegion := "r", awsAccessKeyId := "k",
              awsSecretAccessKey := "sec", awsS3Bucket := "b",
              postgresqlConnectionString := "", postgresqlSsl := false, serverBaseUrl := "" }]
      { inst := none, config := none }).2 ≤ 1 ∧
    FAdapter.configured { provider := "s3", configured := true } = true := by
  constructor
  · exact storageFactory_singleton_and_configured.1
      { STORAGE_PROVIDER := "", AWS_REGION := "", AWS_ACCESS_KEY_ID := "",
        AWS_SECRET_ACCESS_KEY := "", AWS_S3_BUCKET := "",
        POSTGRESQL_CONNECTION_STRING := "", POSTGRESQL_SSL := "", SERVER_BASE_URL := "" }
      [some { storageProvider := "s3", awsRegion := "r", awsAccessKeyId := "k",
              awsSecretAccessKey := "sec", awsS3Bucket := "b",
              postgresqlConnectionString := "", postgresqlSsl := false, serverBaseUrl := "" },
       some { storageProvider := "s3", awsRegion := "r", awsAccessKeyId := "k",
              awsSecretAccessKey := "sec", awsS3Bucket := "b",
              postgresqlConnectionString := "", postgresqlSsl := false, serverBaseUrl := "" }]
      { inst := none, config := none }
  · exact (storageFactory_singleton_and_configured.2
      { STORAGE_PROVIDER := "", AWS_REGION := "", AWS_ACCESS_KEY_ID := "",
        AWS_SECRET_ACCESS_KEY := "", AWS_S3_BUCKET := "",
        POSTGRESQL_CONNECTION_STRING := "", POSTGRESQL_SSL := "", SERVER_BASE_URL := "" }
      (some { storageProvider := "s3", awsRegion := "r", awsAccessKeyId := "k",
              awsSecretAccessKey := "sec", awsS3Bucket := "b",
              postgresqlConnectionString := "", postgresqlSsl := false, serverBaseUrl := "" })
      { inst := none, config := none }
      (Except.ok { provider := "s3", configured := true })
      { inst := some { provider := "s3", configured := true },
        config := some
          { provider := "s3",
            s3 := some { region := "r", accessKeyId := "k", secretAccessKey := "sec",
                         bucket := "b" },
            postgresql := none } }
      (by intro b hb; cases hb) (by decide)).1
      { provider := "s3", configured := true } rfl

end OcrDocs
